import Mathlib

/-!
Shallow embedding of the noise-monitoring ETL and dashboard core
(src/streamlit_app.py, src/supabase_common.py, src/supabase_backfill_all.py).

Conventions of the embedding:
* Calendar dates and UTC instants are integers (`Int`): dates are day
  numbers (for the backfill scripts, day 0 is 2025-05-01, the hard-coded
  backfill horizon), instants are seconds.
* Python floats are embedded as exact rationals (`ℚ`).  Every comparison
  the classifiers perform is of the form `v/1440*100 >= 0.30*100` (and the
  analogous `0.70`, `0.40` forms).  In IEEE double arithmetic
  `0.30*100 = 30.0`, `0.70*100 = 70.0` and `0.40*100 = 40.0` hold exactly,
  and `v/1440*100` (resp. `total/expected*100`) is within two ulps of the
  exact rational value, so the float comparisons coincide with the exact
  rational comparisons for every reachable operand; the embedding
  therefore uses exact rational arithmetic.
* A pandas DataFrame is a column-name list plus a list of rows; each row
  is a date together with the per-column optional values (None/NaN is
  `none`).
* External effects (HTTP fetch, Supabase upsert) are oracle parameters;
  a raised-and-caught exception is an explicit error constructor.
-/

namespace NoiseMonitoring

/-! ## Data model shared by the classifiers (src/streamlit_app.py) -/

/-- Health status literals `'ONLINE' | 'DEGRADED' | 'OFFLINE'`. -/
inductive Status where
  | ONLINE
  | DEGRADED
  | OFFLINE
deriving DecidableEq

/-- `READINGS_PER_DAY = 1440` (src/streamlit_app.py line 39). -/
def READINGS_PER_DAY : ℕ := 1440

/-- `OFFLINE_THRESHOLD = 0.30` (src/streamlit_app.py line 41). -/
def OFFLINE_THRESHOLD : ℚ := 30 / 100

/-- `DEGRADED_THRESHOLD = 0.70` (src/streamlit_app.py line 42). -/
def DEGRADED_THRESHOLD : ℚ := 70 / 100

/-- `ONLINE_OVERALL_THRESHOLD = 0.70` (src/streamlit_app.py line 44). -/
def ONLINE_OVERALL_THRESHOLD : ℚ := 70 / 100

/-- `DEGRADED_OVERALL_THRESHOLD = 0.40` (src/streamlit_app.py line 45). -/
def DEGRADED_OVERALL_THRESHOLD : ℚ := 40 / 100

/-- One row of the wide view: a `Date` plus the per-location values,
aligned positionally with the column-name list of the frame. -/
abbrev DFRow : Type := Int × List (Option ℚ)

/-- A pandas DataFrame of the wide view: location column names plus rows. -/
structure DF where
  cols : List String
  rows : List DFRow
deriving DecidableEq

/-- Value of column `loc` in row `r` (`row[loc]`), given the frame's
column list.  Missing column index yields `none` (NaN). -/
def rowVal (cols : List String) (r : DFRow) (loc : String) : Option ℚ :=
  r.2.getD (cols.indexOf loc) none

/-- `df[df['Date'] == d]`: the rows of the frame dated `d`. -/
def dayDF (df : DF) (d : Int) : List DFRow :=
  df.rows.filter (fun r => r.1 == d)

/-- `rs[loc].notna().sum()`: number of non-null values of column `loc`
among the rows `rs`. -/
def notnaSum (cols : List String) (rs : List DFRow) (loc : String) : ℕ :=
  rs.countP (fun r => (rowVal cols r loc).isSome)

/-! ## Single-day classifier: `get_sensor_health_single_date`
(src/streamlit_app.py lines 76-102) -/

/-- The per-location dict entry `{'reading_count', 'completeness', 'status'}`
returned by the single-day classifier. -/
structure SingleHealth where
  reading_count : ℕ
  completeness : ℚ
  status : Status
deriving DecidableEq

/-- One iteration of the `for loc in location_cols` loop of
`get_sensor_health_single_date` (the non-empty-day branch). -/
def singleHealthEntry (cols : List String) (day_df : List DFRow)
    (loc : String) : SingleHealth :=
  let valid_count : ℕ := if cols.contains loc then notnaSum cols day_df loc else 0
  let completeness : ℚ :=
    if READINGS_PER_DAY > 0 then (valid_count : ℚ) / (READINGS_PER_DAY : ℚ) * 100 else 0
  let status : Status :=
    if completeness ≥ DEGRADED_THRESHOLD * 100 then Status.ONLINE
    else if completeness ≥ OFFLINE_THRESHOLD * 100 then Status.DEGRADED
    else Status.OFFLINE
  ⟨valid_count, completeness, status⟩

/-- Body of `get_sensor_health_single_date` once `day_df` has been
selected: the branch on `day_df.empty` and the per-location loop. -/
def singleHealthCore (cols : List String) (day_df : List DFRow)
    (location_cols : List String) : List (String × SingleHealth) :=
  if day_df.isEmpty then
    location_cols.map (fun loc => (loc, ⟨0, 0, Status.OFFLINE⟩))
  else
    location_cols.map (fun loc => (loc, singleHealthEntry cols day_df loc))

/-- `get_sensor_health_single_date(df, target_date, location_cols)`. -/
def get_sensor_health_single_date (df : DF) (target_date : Int)
    (location_cols : List String) : List (String × SingleHealth) :=
  singleHealthCore df.cols (dayDF df target_date) location_cols

/-! ## Multi-day classifier: `get_sensor_health_date_range`
(src/streamlit_app.py lines 105-163) -/

/-- The dict entry returned per location by the multi-day classifier. -/
structure RangeHealth where
  online_days : ℕ
  total_days : Int
  uptime_pct : ℚ
  completeness_pct : ℚ
  total_readings : ℕ
  expected_readings : Int
  status : Status
  offline_dates : List Int
  degraded_dates : List Int
deriving DecidableEq

/-- Mutable accumulators of the per-day loop of
`get_sensor_health_date_range`. -/
structure RangeAcc where
  online_days : ℕ
  offline_dates : List Int
  degraded_dates : List Int
deriving DecidableEq

/-- `pd.date_range(start_date, end_date, freq='D')` as day numbers
(empty when `e < s`). -/
def dateRange (s e : Int) : List Int :=
  (List.range (e - s + 1).toNat).map (fun i : ℕ => s + (i : Int))

/-- One iteration of the `for single_date in pd.date_range(...)` loop of
`get_sensor_health_date_range`. -/
def rangeDayStep (df : DF) (loc : String) (acc : RangeAcc) (d : Int) : RangeAcc :=
  let day_df := dayDF df d
  if day_df.isEmpty || !(df.cols.contains loc) then
    { acc with offline_dates := acc.offline_dates ++ [d] }
  else
    let valid_count : ℕ := notnaSum df.cols day_df loc
    if valid_count == 0 then
      { acc with offline_dates := acc.offline_dates ++ [d] }
    else
      let completeness : ℚ :=
        if READINGS_PER_DAY > 0 then (valid_count : ℚ) / (READINGS_PER_DAY : ℚ) * 100 else 0
      if completeness < OFFLINE_THRESHOLD * 100 then
        { acc with
            online_days := acc.online_days + 1
            degraded_dates := acc.degraded_dates ++ [d] }
      else
        { acc with online_days := acc.online_days + 1 }

/-- The per-location body of `get_sensor_health_date_range`. -/
def rangeHealthFor (df : DF) (start_date end_date : Int) (loc : String) : RangeHealth :=
  let total_days : Int := (end_date - start_date) + 1
  let acc := (dateRange start_date end_date).foldl (rangeDayStep df loc) ⟨0, [], []⟩
  let total_readings : ℕ :=
    if df.cols.contains loc then notnaSum df.cols df.rows loc else 0
  let expected_readings : Int := (READINGS_PER_DAY : Int) * total_days
  let uptime_pct : ℚ :=
    if total_days > 0 then (acc.online_days : ℚ) / (total_days : ℚ) * 100 else 0
  let completeness_pct : ℚ :=
    if expected_readings > 0 then (total_readings : ℚ) / (expected_readings : ℚ) * 100 else 0
  let status : Status :=
    if completeness_pct ≥ ONLINE_OVERALL_THRESHOLD * 100 then Status.ONLINE
    else if completeness_pct ≥ DEGRADED_OVERALL_THRESHOLD * 100 then Status.DEGRADED
    else Status.OFFLINE
  ⟨acc.online_days, total_days, uptime_pct, completeness_pct, total_readings,
    expected_readings, status, acc.offline_dates, acc.degraded_dates⟩

/-- `get_sensor_health_date_range(df, start_date, end_date, location_cols)`. -/
def get_sensor_health_date_range (df : DF) (start_date end_date : Int)
    (location_cols : List String) : List (String × RangeHealth) :=
  location_cols.map (fun loc => (loc, rangeHealthFor df start_date end_date loc))

/-- The tail of `get_sensor_health_date_range`'s loop body in isolation:
the final status as a function of the window-total observed count and the
number of days only (`completeness_pct` threshold cascade,
src/streamlit_app.py lines 146-152). -/
def overallStatusOf (total_readings : ℕ) (total_days : Int) : Status :=
  let expected_readings : Int := (READINGS_PER_DAY : Int) * total_days
  let completeness_pct : ℚ :=
    if expected_readings > 0 then (total_readings : ℚ) / (expected_readings : ℚ) * 100 else 0
  if completeness_pct ≥ ONLINE_OVERALL_THRESHOLD * 100 then Status.ONLINE
  else if completeness_pct ≥ DEGRADED_OVERALL_THRESHOLD * 100 then Status.DEGRADED
  else Status.OFFLINE

/-- `True` exactly when the multi-day loop counts day `d` as an online day
for `loc`: the day's slice is nonempty, the column exists, and the day has
at least one non-null value. -/
def dayCountsOnline (df : DF) (loc : String) (d : Int) : Bool :=
  !(dayDF df d).isEmpty && df.cols.contains loc &&
    !(notnaSum df.cols (dayDF df d) loc == 0)

/-- `True` exactly when the multi-day loop appends day `d` to
`degraded_dates` for `loc`: the day counts as online and its single-day
completeness is below `OFFLINE_THRESHOLD`. -/
def dayIsDegraded (df : DF) (loc : String) (d : Int) : Bool :=
  dayCountsOnline df loc d &&
    decide ((if READINGS_PER_DAY > 0 then
        ((notnaSum df.cols (dayDF df d) loc : ℚ)) / (READINGS_PER_DAY : ℚ) * 100
      else 0) < OFFLINE_THRESHOLD * 100)

/-! ## ETL helpers (src/supabase_common.py) -/

/-- One entry of the `LOCATIONS` device registry. -/
structure Location where
  ID : String
  Name : String
deriving DecidableEq

/-- The 13-device registry `LOCATIONS` (src/supabase_common.py lines 45-59). -/
def LOCATIONS : List Location :=
  [⟨"15490", "Singapore Sports School"⟩,
   ⟨"16034", "BLK 120 Serangoon North Ave 1"⟩,
   ⟨"16041", "BLK 838 Hougang Central"⟩,
   ⟨"14542", "BLK 558 Jurong West Street 42"⟩,
   ⟨"15725", "Jurong Safra, Block C"⟩,
   ⟨"16032", "AMA KENG SITE"⟩,
   ⟨"16045", "BLK 19 Balam Road"⟩,
   ⟨"15820", "Norcom II Tower 4"⟩,
   ⟨"15821", "Blk 444 Choa Chu Kang Avenue 4"⟩,
   ⟨"15999", "BLK 654B Punggol Drive"⟩,
   ⟨"16026", "BLK 132B Tengah Garden Avenue"⟩,
   ⟨"16004", "BLK 206A Punggol Place"⟩,
   ⟨"16005", "Woodlands 11"⟩]

/-- The `"dt"` field of a raw API observation, as seen by `build_rows`:
the key can be missing, be JSON null, be the empty string (all three are
falsy in `if not dt_str`), fail `datetime.fromisoformat`, or parse to a
UTC instant (seconds). -/
inductive DtField where
  | missing
  | null
  | empty
  | invalid
  | valid (t : Int)
deriving DecidableEq

/-- The `"reading"` field of a raw API observation: JSON null, a numeric
value, or a value on which `float(...)` raises. -/
inductive ReadingField where
  | null
  | num (q : ℚ)
  | unparseable
deriving DecidableEq

/-- One element of the JSON array returned by the upstream API. -/
structure RawItem where
  dt : DtField
  reading : ReadingField
deriving DecidableEq

/-- Outcome of the `requests.get` / `r.json()` block of `build_rows`:
either some exception was raised (caught, logged, empty result) or a raw
item list was obtained. -/
inductive FetchResult where
  | fail
  | ok (raw : List RawItem)

/-- One row built for Supabase (src/supabase_common.py lines 110-116). -/
structure Row where
  location_id : String
  location_name : String
  reading_value : Option ℚ
  reading_datetime : Int
  created_at : Int
deriving DecidableEq

/-- `timedelta(hours=1)` in seconds. -/
def oneHour : Int := 3600

/-- The `value` extraction of `build_rows` (lines 101-107): `None` when the
reading is absent, the parsed float when `float(...)` succeeds, and `None`
again when `float(...)` raises. -/
def parseReading : ReadingField → Option ℚ
  | .null => none
  | .num q => some q
  | .unparseable => none

/-- The body of the `for item in raw` loop of `build_rows` for one item:
`none` means `continue` (dropped observation), `some` is the appended row. -/
def itemToRow (loc : Location) (now : Int) (item : RawItem) : Option Row :=
  match item.dt with
  | .missing => none
  | .null => none
  | .empty => none
  | .invalid => none
  | .valid t =>
      if now + oneHour < t then none
      else some ⟨loc.ID, loc.Name, parseReading item.reading, t, now⟩

/-- `build_rows(api_base, loc, day)` (src/supabase_common.py lines 64-119),
with the network interaction abstracted into the `fetched` oracle and
`datetime.now` into `now`.  The built rows do not depend on `day` (it only
selects what the API returns), so `day` is folded into `fetched`. -/
def build_rows (loc : Location) (fetched : FetchResult) (now : Int) : List Row :=
  match fetched with
  | .fail => []
  | .ok raw => if raw.isEmpty then [] else raw.filterMap (itemToRow loc now)

/-- Result of one `supabase.table(table).upsert(chunk, ...).execute()`
call: an exception, a response whose `.data` is not a list, or a response
carrying a row list. -/
inductive UpsertResp where
  | error
  | okOther
  | okData (data : List Row)

/-- `CHUNK = 1000` (src/supabase_common.py line 128). -/
def CHUNK : ℕ := 1000

/-- The chunk start offsets `range(0, len(rows), CHUNK)`. -/
def chunkStarts (n : ℕ) : List ℕ :=
  (List.range ((n + CHUNK - 1) / CHUNK)).map (fun k => k * CHUNK)

/-- `upsert_rows(supabase, table, rows)` (src/supabase_common.py lines
122-146), with the store abstracted into the `exec` oracle indexed by the
chunk start offset `i`.  A failed chunk is skipped (`continue`); a
successful chunk adds `len(resp.data)` when `.data` is a list. -/
def upsert_rows (exec : ℕ → List Row → UpsertResp) (rows : List Row) : ℕ :=
  if rows.isEmpty then 0
  else
    (chunkStarts rows.length).foldl
      (fun inserted i =>
        match exec i ((rows.drop i).take CHUNK) with
        | .okData d => inserted + d.length
        | _ => inserted)
      0

/-- The rows `upsert_rows` actually hands to the store without the call
raising: the concatenation of the chunks whose `execute()` does not raise
(the write side effect of the loop, recorded explicitly). -/
def persistedRows (exec : ℕ → List Row → UpsertResp) (rows : List Row) : List Row :=
  (chunkStarts rows.length).foldl
    (fun acc i =>
      match exec i ((rows.drop i).take CHUNK) with
      | .error => acc
      | _ => acc ++ (rows.drop i).take CHUNK)
    []

/-! ## Backfill walker (src/supabase_backfill_all.py) -/

/-- `start_date = date(2025, 5, 1)` (src/supabase_backfill_all.py line 54),
the hard-coded earliest day of the walk, which is day number 0 in this
embedding's day numbering. -/
def backfill_start_date : Int := 0

/-- The run counters of `main` plus the processed-day log (the walk's
observable trace) and whether the empty-streak break fired. -/
structure WalkResult where
  days_processed : ℕ
  days_with_data : ℕ
  total_affected : ℕ
  processed : List Int
  stopped_by_streak : Bool
deriving DecidableEq

/-- The `for loc in LOCATIONS` block of one day iteration: `day_rows` as
the concatenation of every location's `build_rows` result, with the
upstream abstracted as the oracle `api`. -/
def dayRowsAll (api : Location → Int → FetchResult) (now : Int) (d : Int) : List Row :=
  (LOCATIONS.map (fun loc => build_rows loc (api loc d) now)).flatten

/-- The `while current_date >= start_date` loop of `main`
(src/supabase_backfill_all.py lines 72-126).  `fuel` is the number of days
from `current` down to `backfill_start_date` inclusive, so `fuel = 0` is
exactly the loop condition turning false.  `exec` is the store oracle,
indexed by day then by chunk offset. -/
def walkAux (api : Location → Int → FetchResult)
    (exec : Int → ℕ → List Row → UpsertResp) (now : Int)
    (empty_chunks_to_stop : ℕ) :
    ℕ → Int → ℕ → WalkResult → WalkResult
  | 0, _, _, res => res
  | fuel + 1, current, empty_streak, res =>
      let day_rows := dayRowsAll api now current
      let affected := upsert_rows (exec current) day_rows
      let res' : WalkResult :=
        { days_processed := res.days_processed + 1
          days_with_data :=
            if affected == 0 then res.days_with_data else res.days_with_data + 1
          total_affected := res.total_affected + affected
          processed := res.processed ++ [current]
          stopped_by_streak := false }
      let streak' := if affected == 0 then empty_streak + 1 else 0
      if empty_chunks_to_stop ≤ streak' then { res' with stopped_by_streak := true }
      else walkAux api exec now empty_chunks_to_stop fuel (current - 1) streak' res'

/-- `main()` of src/supabase_backfill_all.py: walk from `end_date`
(`yesterday_sgt()`, a run-time input) backwards to the hard-coded
`backfill_start_date`.  `empty_chunks_to_stop` is the already-clamped
configuration value (the source applies `max(1, ...)`, so it is ≥ 1). -/
def main (api : Location → Int → FetchResult)
    (exec : Int → ℕ → List Row → UpsertResp) (now : Int)
    (empty_chunks_to_stop : ℕ) (end_date : Int) : WalkResult :=
  walkAux api exec now empty_chunks_to_stop
    ((end_date - backfill_start_date) + 1).toNat end_date 0 ⟨0, 0, 0, [], false⟩

/-- Modelled from the spec: the configurable maximum-lookback boundary.
The script's docstring (src/supabase_backfill_all.py lines 12-14) promises
`BACKFILL_MAX_YEARS: how far back to go at most (default 5)`, i.e. an
earliest-allowed date of `maxYears` years (365-day years) before the run
date; `main()` itself never reads this configuration.  `today` is the run
date in day numbers (day 0 = 2025-05-01). -/
def configuredEarliestDate (today : Int) (maxYears : ℕ) : Int :=
  today - 365 * (maxYears : Int)

/-! ## Concrete inputs used by witness instantiations -/

/-- First entry of `LOCATIONS`, used as a concrete device. -/
def locSports : Location := ⟨"15490", "Singapore Sports School"⟩

/-- A well-formed observation one minute past the epoch. -/
def goodItem : RawItem := ⟨DtField.valid 60, ReadingField.num 55⟩

/-- An observation more than one hour in the future of `now = 0`. -/
def futureItem : RawItem := ⟨DtField.valid 4000, ReadingField.num 55⟩

/-- A single-location frame with 1008 non-null readings on day 0. -/
def dfC2 : DF := ⟨["L"], List.replicate 1008 ((0 : Int), [some (55 : ℚ)])⟩

/-- The 3-day asymmetry scenario: 1 reading on day 0, no rows at all on
day 1, 1440 readings on day 2. -/
def dfC1 : DF :=
  ⟨["L"], ((0 : Int), [some (55 : ℚ)]) :: List.replicate 1440 ((2 : Int), [some (55 : ℚ)])⟩

/-- A single-location frame with one reading on day 1 and nothing on day 0. -/
def dfC6 : DF := ⟨["L"], [((1 : Int), [some (55 : ℚ)])]⟩

/-- An all-null day-0 row block for the C6 comparison. -/
def extraC6 : List DFRow := [((0 : Int), [(none : Option ℚ)])]

/-- A concrete storage row. -/
def rowA : Row := ⟨"15490", "Singapore Sports School", some 55, 0, 0⟩

/-- 2500 rows: a 3-chunk upsert input (1000 + 1000 + 500). -/
def rowsC5 : List Row := List.replicate 2500 rowA

/-- A store oracle whose write fails exactly on the chunk at offset 1000
(the second chunk) and echoes every other chunk back as `resp.data`. -/
def execC5 : ℕ → List Row → UpsertResp :=
  fun i chunk => if i = 1000 then UpsertResp.error else UpsertResp.okData chunk

/-- An upstream that returns one valid observation for every device-day. -/
def apiFull : Location → Int → FetchResult :=
  fun _ _ => FetchResult.ok [⟨DtField.valid 0, ReadingField.num 55⟩]

/-- A store oracle that accepts every chunk and echoes it as `resp.data`. -/
def execEcho : Int → ℕ → List Row → UpsertResp :=
  fun _ _ chunk => UpsertResp.okData chunk

end NoiseMonitoring

namespace NoiseMonitoring

/-! ## Helper lemmas -/

/-- On a successful fetch, `build_rows` is the per-item `filterMap`
(the `if not raw` early return coincides with filtering nothing). -/
theorem build_rows_ok (loc : Location) (now : Int) (raw : List RawItem) :
    build_rows loc (.ok raw) now = raw.filterMap (itemToRow loc now) := by
  cases raw <;> rfl

/-- Looking up `loc` in a dict built by mapping `f` over keys containing
`loc` returns `f loc`. -/
theorem lookup_map_self {β : Type} (f : String → β) (locs : List String) (loc : String)
    (h : loc ∈ locs) :
    (locs.map (fun l => (l, f l))).lookup loc = some (f loc) := by
  induction locs with
  | nil => cases h
  | cons a as ih =>
      rcases List.mem_cons.mp h with h1 | h1
      · subst h1; simp [List.lookup]
      · by_cases hb : loc == a
        · have hba := eq_of_beq hb; subst hba; simp [List.lookup]
        · simp only [List.map_cons, List.lookup, hb]
          exact ih h1

/-- Looking up a key absent from the mapped dict returns `none`. -/
theorem lookup_map_none {β : Type} (f : String → β) (locs : List String) (loc : String)
    (h : loc ∉ locs) :
    (locs.map (fun l => (l, f l))).lookup loc = none := by
  induction locs with
  | nil => rfl
  | cons a as ih =>
      have hne : loc ≠ a := fun hc => h (hc ▸ List.mem_cons_self a as)
      have hb : (loc == a) = false := beq_eq_false_iff_ne.mpr hne
      simp only [List.map_cons, List.lookup, hb]
      exact ih (fun hc => h (List.mem_cons_of_mem a hc))

/-- Two pointwise-equal fold functions fold equally. -/
theorem foldl_fun_congr {α β : Type} (f g : α → β → α) (l : List β) (a : α)
    (h : ∀ acc x, f acc x = g acc x) : l.foldl f a = l.foldl g a := by
  induction l generalizing a with
  | nil => rfl
  | cons x xs ih =>
      rw [List.foldl_cons, List.foldl_cons, h]
      exact ih _

/-- `dateRange` has one entry per calendar day of the window. -/
theorem dateRange_length (s e : Int) : (dateRange s e).length = (e - s + 1).toNat := by
  unfold dateRange
  rw [List.length_map, List.length_range]

/-- Every member of `dateRange s e` lies between `s` and `e`. -/
theorem dateRange_mem_bounds (s e d : Int) (h : d ∈ dateRange s e) : s ≤ d ∧ d ≤ e := by
  unfold dateRange at h
  rw [List.mem_map] at h
  obtain ⟨i, hi, rfl⟩ := h
  rw [List.mem_range] at hi
  omega

/-- The per-day loop step, rephrased by the decision Booleans: an
online day increments `online_days` (and is appended to `degraded_dates`
when sparse), any other day is appended to `offline_dates`. -/
theorem rangeDayStep_eq (df : DF) (loc : String) (acc : RangeAcc) (d : Int) :
    rangeDayStep df loc acc d
      = if dayCountsOnline df loc d = true then
          (if dayIsDegraded df loc d = true then
            ⟨acc.online_days + 1, acc.offline_dates, acc.degraded_dates ++ [d]⟩
           else ⟨acc.online_days + 1, acc.offline_dates, acc.degraded_dates⟩)
        else ⟨acc.online_days, acc.offline_dates ++ [d], acc.degraded_dates⟩ := by
  cases hE : (dayDF df d).isEmpty with
  | true =>
      have hon : dayCountsOnline df loc d = false := by
        unfold dayCountsOnline
        rw [hE]
        rfl
      rw [hon, if_neg Bool.false_ne_true]
      unfold rangeDayStep
      simp [hE]
  | false =>
      cases hC : df.cols.contains loc with
      | false =>
          have hon : dayCountsOnline df loc d = false := by
            unfold dayCountsOnline
            rw [hE, hC]
            rfl
          rw [hon, if_neg Bool.false_ne_true]
          unfold rangeDayStep
          rw [hC]
          simp
      | true =>
          cases hV : (notnaSum df.cols (dayDF df d) loc == 0) with
          | true =>
              have hV' : notnaSum df.cols (dayDF df d) loc = 0 := by simpa using hV
              have hon : dayCountsOnline df loc d = false := by
                unfold dayCountsOnline
                rw [hE, hC, hV]
                rfl
              rw [hon, if_neg Bool.false_ne_true]
              unfold rangeDayStep
              simp [hE, hC, hV']
          | false =>
              have hon : dayCountsOnline df loc d = true := by
                unfold dayCountsOnline
                rw [hE, hC, hV]
                rfl
              rw [hon, if_pos rfl]
              by_cases hQ : (if READINGS_PER_DAY > 0 then
                  ((notnaSum df.cols (dayDF df d) loc : ℚ)) / (READINGS_PER_DAY : ℚ) * 100
                else 0) < OFFLINE_THRESHOLD * 100
              · have hdeg : dayIsDegraded df loc d = true := by
                  unfold dayIsDegraded
                  rw [hon]
                  simpa using hQ
                rw [hdeg, if_pos rfl]
                unfold rangeDayStep
                simp only [hE, hC, hV]
                simp [hQ]
              · have hdeg : dayIsDegraded df loc d = false := by
                  unfold dayIsDegraded
                  rw [hon]
                  simpa using hQ
                rw [hdeg, if_neg Bool.false_ne_true]
                unfold rangeDayStep
                simp only [hE, hC, hV]
                simp [hQ]

/-- Closed form of the multi-day loop: `online_days` counts the days
whose `dayCountsOnline` holds, `offline_dates` collects the remaining
days in order, `degraded_dates` collects the sparse online days. -/
theorem range_fold_spec (df : DF) (loc : String) :
    ∀ (days : List Int) (acc : RangeAcc),
      ((days.foldl (rangeDayStep df loc) acc).online_days
          = acc.online_days + days.countP (fun d => dayCountsOnline df loc d)) ∧
      ((days.foldl (rangeDayStep df loc) acc).offline_dates
          = acc.offline_dates ++ days.filter (fun d => !(dayCountsOnline df loc d))) ∧
      ((days.foldl (rangeDayStep df loc) acc).degraded_dates
          = acc.degraded_dates ++ days.filter (fun d => dayIsDegraded df loc d)) := by
  intro days
  induction days with
  | nil => intro acc; simp
  | cons x xs ih =>
      intro acc
      rw [List.foldl_cons, rangeDayStep_eq]
      by_cases h1 : dayCountsOnline df loc x = true
      · by_cases h2 : dayIsDegraded df loc x = true
        · rw [if_pos h1, if_pos h2]
          obtain ⟨i1, i2, i3⟩ :=
            ih ⟨acc.online_days + 1, acc.offline_dates, acc.degraded_dates ++ [x]⟩
          refine ⟨?_, ?_, ?_⟩
          · rw [i1]; simp [List.countP_cons, h1]; omega
          · rw [i2]; simp [List.filter_cons, h1]
          · rw [i3]; simp [List.filter_cons, h2]
        · rw [if_pos h1, if_neg h2]
          obtain ⟨i1, i2, i3⟩ :=
            ih ⟨acc.online_days + 1, acc.offline_dates, acc.degraded_dates⟩
          refine ⟨?_, ?_, ?_⟩
          · rw [i1]; simp [List.countP_cons, h1]; omega
          · rw [i2]; simp [List.filter_cons, h1]
          · rw [i3]; simp [List.filter_cons, h2]
      · rw [if_neg h1]
        have h2 : ¬ dayIsDegraded df loc x = true := by
          unfold dayIsDegraded
          simp only [Bool.and_eq_true]
          intro hc
          exact h1 hc.1
        obtain ⟨i1, i2, i3⟩ :=
          ih ⟨acc.online_days, acc.offline_dates ++ [x], acc.degraded_dates⟩
        refine ⟨?_, ?_, ?_⟩
        · rw [i1]; simp [List.countP_cons, h1]
        · rw [i2]; simp [List.filter_cons, h1]
        · rw [i3]; simp [List.filter_cons, h2]

/-- `total_days` field of the multi-day record. -/
theorem rangeHealthFor_total_days (df : DF) (s e : Int) (loc : String) :
    (rangeHealthFor df s e loc).total_days = (e - s) + 1 := rfl

/-- `online_days` field of the multi-day record. -/
theorem rangeHealthFor_online_days (df : DF) (s e : Int) (loc : String) :
    (rangeHealthFor df s e loc).online_days
      = ((dateRange s e).foldl (rangeDayStep df loc) ⟨0, [], []⟩).online_days := rfl

/-- `offline_dates` field of the multi-day record. -/
theorem rangeHealthFor_offline_dates (df : DF) (s e : Int) (loc : String) :
    (rangeHealthFor df s e loc).offline_dates
      = ((dateRange s e).foldl (rangeDayStep df loc) ⟨0, [], []⟩).offline_dates := rfl

/-- `degraded_dates` field of the multi-day record. -/
theorem rangeHealthFor_degraded_dates (df : DF) (s e : Int) (loc : String) :
    (rangeHealthFor df s e loc).degraded_dates
      = ((dateRange s e).foldl (rangeDayStep df loc) ⟨0, [], []⟩).degraded_dates := rfl

/-- `total_readings` field of the multi-day record. -/
theorem rangeHealthFor_total_readings (df : DF) (s e : Int) (loc : String) :
    (rangeHealthFor df s e loc).total_readings
      = (if df.cols.contains loc then notnaSum df.cols df.rows loc else 0) := rfl

/-- `completeness_pct` field of the multi-day record. -/
theorem rangeHealthFor_completeness_pct (df : DF) (s e : Int) (loc : String) :
    (rangeHealthFor df s e loc).completeness_pct
      = (if (READINGS_PER_DAY : Int) * ((e - s) + 1) > 0 then
          ((if df.cols.contains loc then notnaSum df.cols df.rows loc else 0 : ℕ) : ℚ)
            / (((READINGS_PER_DAY : Int) * ((e - s) + 1) : Int) : ℚ) * 100
        else 0) := rfl

/-- `status` field of the multi-day record, as `overallStatusOf`. -/
theorem rangeHealthFor_status (df : DF) (s e : Int) (loc : String) :
    (rangeHealthFor df s e loc).status
      = overallStatusOf
          (if df.cols.contains loc then notnaSum df.cols df.rows loc else 0)
          ((e - s) + 1) := rfl

/-! ## Claim theorems -/

/-- Claim C4: an observation whose parsed timestamp is more than one hour
ahead of now is excluded from `build_rows`' output regardless of its
reading value, without an error and without affecting the other
observations of the same device-day (erasing it leaves the output
unchanged). -/
theorem C4_clock_skew_guard (loc : Location) (now : Int) (pre post : List RawItem)
    (item : RawItem) (t : Int) (hdt : item.dt = DtField.valid t)
    (hfut : now + oneHour < t) :
    build_rows loc (.ok (pre ++ item :: post)) now
      = build_rows loc (.ok (pre ++ post)) now := by
  have h0 : itemToRow loc now item = none := by
    rcases item with ⟨dt, rd⟩
    simp only at hdt
    subst hdt
    simp [itemToRow, hfut]
  simp [build_rows_ok, h0]

/-- Witness for C4 at a concrete device-day. -/
theorem C4_clock_skew_guard_witness :
    build_rows locSports (.ok ([goodItem] ++ futureItem :: [])) 0
      = build_rows locSports (.ok ([goodItem] ++ [])) 0 :=
  C4_clock_skew_guard locSports 0 [goodItem] [] futureItem 4000 rfl (by decide)

/-- Claim C10: an observation whose `dt` field is missing, null, or the
empty string is silently skipped by `build_rows` (erasing it leaves the
output unchanged), while the remaining observations are still processed. -/
theorem C10_falsy_dt_skipped (loc : Location) (now : Int) (pre post : List RawItem)
    (item : RawItem)
    (hdt : item.dt = DtField.missing ∨ item.dt = DtField.null ∨ item.dt = DtField.empty) :
    build_rows loc (.ok (pre ++ item :: post)) now
      = build_rows loc (.ok (pre ++ post)) now := by
  have h0 : itemToRow loc now item = none := by
    rcases item with ⟨dt, rd⟩
    rcases hdt with h | h | h <;> (simp only at h; subst h; rfl)
  simp [build_rows_ok, h0]

/-- Witness for C10 at a concrete device-day. -/
theorem C10_falsy_dt_skipped_witness :
    build_rows locSports
        (.ok ([goodItem] ++ (⟨DtField.empty, ReadingField.num 7⟩ : RawItem) :: [goodItem])) 0
      = build_rows locSports (.ok ([goodItem] ++ [goodItem])) 0 :=
  C10_falsy_dt_skipped locSports 0 [goodItem] [goodItem] ⟨DtField.empty, ReadingField.num 7⟩
    (Or.inr (Or.inr rfl))

/-- Claim C8: a present-but-unparseable reading still yields its row, with
value `none` (never zero, never an error), and the surrounding
observations are processed normally. -/
theorem C8_unparseable_reading_absent (loc : Location) (now t : Int)
    (pre post : List RawItem) (h : t ≤ now + oneHour) :
    build_rows loc
        (.ok (pre ++ (⟨DtField.valid t, ReadingField.unparseable⟩ : RawItem) :: post)) now
      = pre.filterMap (itemToRow loc now)
        ++ (⟨loc.ID, loc.Name, none, t, now⟩ : Row) :: post.filterMap (itemToRow loc now) := by
  have h0 : itemToRow loc now ⟨DtField.valid t, ReadingField.unparseable⟩
      = some ⟨loc.ID, loc.Name, none, t, now⟩ := by
    simp [itemToRow, parseReading, not_lt.mpr h]
  simp [build_rows_ok, h0]

/-- Witness for C8 at a concrete device-day. -/
theorem C8_unparseable_reading_absent_witness :
    build_rows locSports
        (.ok ([goodItem] ++ (⟨DtField.valid 60, ReadingField.unparseable⟩ : RawItem) :: [])) 0
      = [goodItem].filterMap (itemToRow locSports 0)
        ++ (⟨locSports.ID, locSports.Name, none, 60, 0⟩ : Row)
          :: List.filterMap (itemToRow locSports 0) [] :=
  C8_unparseable_reading_absent locSports 0 60 [goodItem] [] (by decide)

/-- Claim C2: single-day boundaries are inclusive: with 1440 expected
readings, thresholds 0.70/0.30, an observed count of 1008 (exactly 70%)
is ONLINE, 432 (exactly 30%) is DEGRADED, and 431 is OFFLINE. -/
theorem C2_single_day_boundaries (df : DF) (target : Int) (locs : List String)
    (loc : String) (hmem : loc ∈ locs) (hne : (dayDF df target).isEmpty = false)
    (hcol : df.cols.contains loc = true) :
    (notnaSum df.cols (dayDF df target) loc = 1008 →
      ((get_sensor_health_single_date df target locs).lookup loc).map SingleHealth.status
        = some Status.ONLINE) ∧
    (notnaSum df.cols (dayDF df target) loc = 432 →
      ((get_sensor_health_single_date df target locs).lookup loc).map SingleHealth.status
        = some Status.DEGRADED) ∧
    (notnaSum df.cols (dayDF df target) loc = 431 →
      ((get_sensor_health_single_date df target locs).lookup loc).map SingleHealth.status
        = some Status.OFFLINE) := by
  refine ⟨fun hv => ?_, fun hv => ?_, fun hv => ?_⟩ <;>
  · unfold get_sensor_health_single_date singleHealthCore
    rw [hne]
    simp only [Bool.false_eq_true, if_false]
    rw [lookup_map_self _ _ _ hmem]
    have hin : loc ∈ df.cols := by simpa using hcol
    simp [singleHealthEntry, hin, hv, READINGS_PER_DAY, DEGRADED_THRESHOLD, OFFLINE_THRESHOLD]
    norm_num

set_option maxRecDepth 20000 in
/-- Witness for C2: a frame with exactly 1008 readings on the day. -/
theorem C2_single_day_boundaries_witness :
    ((get_sensor_health_single_date dfC2 0 ["L"]).lookup "L").map SingleHealth.status
      = some Status.ONLINE :=
  (C2_single_day_boundaries dfC2 0 ["L"] "L" (by decide) (by decide) (by decide)).1
    (by decide)

/-- Claim C5: `upsert_rows` splits a 3-chunk input at offsets 0, 1000,
2000; when only the middle chunk's write fails, chunks 1 and 3 are still
handed to the store and the returned count is the sum of their sizes —
neither zero nor the full batch size. -/
theorem C5_partial_batch_resilience (rows : List Row) (exec : ℕ → List Row → UpsertResp)
    (h1 : 2000 < rows.length) (h2 : rows.length ≤ 3000)
    (hc1 : exec 0 (rows.take 1000) = UpsertResp.okData (rows.take 1000))
    (hc2 : exec 1000 ((rows.drop 1000).take 1000) = UpsertResp.error)
    (hc3 : exec 2000 ((rows.drop 2000).take 1000)
      = UpsertResp.okData ((rows.drop 2000).take 1000)) :
    upsert_rows exec rows = 1000 + (rows.length - 2000) ∧
    persistedRows exec rows = rows.take 1000 ++ (rows.drop 2000).take 1000 ∧
    upsert_rows exec rows ≠ 0 ∧ upsert_rows exec rows ≠ rows.length := by
  have hs : chunkStarts rows.length = [0, 1000, 2000] := by
    unfold chunkStarts CHUNK
    have h3 : (rows.length + 1000 - 1) / 1000 = 3 := by omega
    rw [h3]
    rfl
  have hne : rows.isEmpty = false := by
    cases rows with
    | nil => simp at h1
    | cons a l => rfl
  have l1 : (rows.take 1000).length = 1000 := by
    rw [List.length_take]; omega
  have l3 : ((rows.drop 2000).take 1000).length = rows.length - 2000 := by
    rw [List.length_take, List.length_drop]; omega
  have e1 : upsert_rows exec rows = 1000 + (rows.length - 2000) := by
    unfold upsert_rows
    rw [hne]
    simp only [Bool.false_eq_true, if_false, hs, List.foldl_cons, List.foldl_nil, CHUNK,
      List.drop_zero]
    rw [hc1, hc2, hc3]
    simp [l1, l3]
  refine ⟨e1, ?_, ?_, ?_⟩
  · unfold persistedRows
    simp only [hs, List.foldl_cons, List.foldl_nil, CHUNK, List.drop_zero]
    rw [hc1, hc2, hc3]
    simp
  · omega
  · omega

/-- Witness for C5: 2500 identical rows, middle chunk failing. -/
theorem C5_partial_batch_resilience_witness :
    upsert_rows execC5 rowsC5 = 1000 + (rowsC5.length - 2000) ∧
    persistedRows execC5 rowsC5 = rowsC5.take 1000 ++ (rowsC5.drop 2000).take 1000 ∧
    upsert_rows execC5 rowsC5 ≠ 0 ∧ upsert_rows execC5 rowsC5 ≠ rowsC5.length :=
  C5_partial_batch_resilience rowsC5 execC5
    (by simp only [rowsC5, List.length_replicate]; omega)
    (by simp only [rowsC5, List.length_replicate]; omega) rfl rfl rfl

/-- With an upstream returning zero rows for every device, a day builds
no rows at all. -/
theorem dayRowsAll_empty_upstream (now d : Int) :
    dayRowsAll (fun _ _ => FetchResult.ok []) now d = [] := rfl

/-- One unfolding of the walk loop under the all-empty upstream: the
day's affected count is 0, so the streak increments and either the
empty-streak break fires or the loop recurses on the previous day. -/
theorem walkAux_empty_step (exec : Int → ℕ → List Row → UpsertResp) (now : Int)
    (stopN n : ℕ) (current : Int) (streak : ℕ) (res : WalkResult) :
    walkAux (fun _ _ => FetchResult.ok []) exec now stopN (n + 1) current streak res
      = (if stopN ≤ streak + 1
         then { days_processed := res.days_processed + 1
                days_with_data := res.days_with_data
                total_affected := res.total_affected + 0
                processed := res.processed ++ [current]
                stopped_by_streak := true }
         else walkAux (fun _ _ => FetchResult.ok []) exec now stopN n (current - 1) (streak + 1)
                { days_processed := res.days_processed + 1
                  days_with_data := res.days_with_data
                  total_affected := res.total_affected + 0
                  processed := res.processed ++ [current]
                  stopped_by_streak := false }) := rfl

/-- Under the all-empty upstream the walk performs `min (stopN - streak)
fuel` further iterations. -/
theorem walkAux_empty_count (exec : Int → ℕ → List Row → UpsertResp) (now : Int)
    (stopN : ℕ) :
    ∀ (fuel : ℕ) (current : Int) (streak : ℕ) (res : WalkResult), streak < stopN →
      (walkAux (fun _ _ => FetchResult.ok []) exec now stopN fuel current streak
          res).days_processed
        = res.days_processed + min (stopN - streak) fuel := by
  intro fuel
  induction fuel with
  | zero =>
      intro current streak res h
      simp [walkAux]
  | succ n ih =>
      intro current streak res h
      rw [walkAux_empty_step]
      by_cases hb : stopN ≤ streak + 1
      · rw [if_pos hb]
        simp only
        omega
      · rw [if_neg hb]
        rw [ih (current - 1) (streak + 1) _ (by omega)]
        simp only
        omega

/-- Claim C3, amended: with an upstream that returns zero rows for every
device on every day, the walker performs exactly
`min empty_chunks_to_stop windowDays` day-iterations, where `windowDays`
is the number of days from the hard-coded horizon 2025-05-01 up to
`end_date` (yesterday); in particular it performs exactly
`empty_chunks_to_stop` iterations whenever that threshold fits inside the
window. -/
theorem C3_empty_streak_stop (exec : Int → ℕ → List Row → UpsertResp) (now : Int)
    (empty_chunks_to_stop : ℕ) (end_date : Int) (h1 : 1 ≤ empty_chunks_to_stop) :
    (main (fun _ _ => FetchResult.ok []) exec now empty_chunks_to_stop
        end_date).days_processed
      = min empty_chunks_to_stop ((end_date - backfill_start_date) + 1).toNat ∧
    (empty_chunks_to_stop ≤ ((end_date - backfill_start_date) + 1).toNat →
      (main (fun _ _ => FetchResult.ok []) exec now empty_chunks_to_stop
          end_date).days_processed = empty_chunks_to_stop) := by
  have e1 := walkAux_empty_count exec now empty_chunks_to_stop
    ((end_date - backfill_start_date) + 1).toNat end_date 0 ⟨0, 0, 0, [], false⟩
    (by omega)
  constructor
  · rw [main, e1]
    simp
  · intro hle
    rw [main, e1]
    simp
    omega

/-- Witness for C3 (amended): threshold 7, an 11-day window, 7 iterations. -/
theorem C3_empty_streak_stop_witness :
    (main (fun _ _ => FetchResult.ok []) (fun _ _ _ => UpsertResp.okOther) 0 7
        10).days_processed = 7 :=
  (C3_empty_streak_stop (fun _ _ _ => UpsertResp.okOther) 0 7 10 (by decide)).2 (by decide)

set_option maxRecDepth 100000 in
/-- Claim C1: the multi-day status is a function of the aggregate
observed total and the day count alone (never of the online-day count);
the aggregate ratio is classified by the 0.70/0.40 thresholds; and in the
1/0/1440 three-day scenario the online-day count is 2 of 3 while the
aggregate completeness 1441/4320 yields OFFLINE. -/
theorem C1_aggregate_drives_status :
    (∀ (df : DF) (s e : Int) (loc : String),
      (rangeHealthFor df s e loc).status
        = overallStatusOf (rangeHealthFor df s e loc).total_readings ((e - s) + 1)) ∧
    (∀ (t : ℕ) (N : Int), 0 < N →
      overallStatusOf t N
        = (if (t : ℚ) / ((1440 : ℚ) * (N : ℚ)) ≥ 7 / 10 then Status.ONLINE
           else if (t : ℚ) / ((1440 : ℚ) * (N : ℚ)) ≥ 2 / 5 then Status.DEGRADED
           else Status.OFFLINE)) ∧
    ((rangeHealthFor dfC1 0 2 "L").online_days = 2 ∧
     (rangeHealthFor dfC1 0 2 "L").total_days = 3 ∧
     (rangeHealthFor dfC1 0 2 "L").total_readings = 1441 ∧
     (rangeHealthFor dfC1 0 2 "L").completeness_pct = (1441 : ℚ) / 4320 * 100 ∧
     (rangeHealthFor dfC1 0 2 "L").status = Status.OFFLINE) := by
  refine ⟨fun df s e loc => rfl, fun t N hN => ?_, ?_⟩
  case refine_2 =>
    have hdr : dateRange 0 2 = [0, 1, 2] := by decide
    have b0 : dayCountsOnline dfC1 "L" 0 = true := by decide
    have b1 : dayCountsOnline dfC1 "L" 1 = false := by decide
    have b2 : dayCountsOnline dfC1 "L" 2 = true := by decide
    have v0 : notnaSum dfC1.cols (dayDF dfC1 0) "L" = 1 := by decide
    have v2 : notnaSum dfC1.cols (dayDF dfC1 2) "L" = 1440 := by decide
    have g0 : dayIsDegraded dfC1 "L" 0 = true := by
      unfold dayIsDegraded
      rw [b0, v0]
      norm_num [READINGS_PER_DAY, OFFLINE_THRESHOLD]
    have g2 : dayIsDegraded dfC1 "L" 2 = false := by
      unfold dayIsDegraded
      rw [b2, v2]
      norm_num [READINGS_PER_DAY, OFFLINE_THRESHOLD]
    have hacc : (dateRange 0 2).foldl (rangeDayStep dfC1 "L") ⟨0, [], []⟩
        = (⟨2, [1], [0]⟩ : RangeAcc) := by
      rw [hdr]
      simp only [List.foldl_cons, List.foldl_nil, rangeDayStep_eq, b0, b1, b2, g0, g2]
      simp
    have hc : dfC1.cols.contains "L" = true := by decide
    have hts : notnaSum dfC1.cols dfC1.rows "L" = 1441 := by decide
    refine ⟨?_, rfl, ?_, ?_, ?_⟩
    · rw [rangeHealthFor_online_days, hacc]
    · rw [rangeHealthFor_total_readings, if_pos hc, hts]
    · rw [rangeHealthFor_completeness_pct, if_pos hc, hts,
        if_pos (by norm_num [READINGS_PER_DAY] : (READINGS_PER_DAY : Int) * ((2 - 0) + 1) > 0)]
      simp only [READINGS_PER_DAY]
      push_cast
      norm_num
    · rw [rangeHealthFor_status, if_pos hc, hts]
      unfold overallStatusOf
      norm_num [READINGS_PER_DAY, ONLINE_OVERALL_THRESHOLD, DEGRADED_OVERALL_THRESHOLD]
  have hexp : (0 : Int) < (READINGS_PER_DAY : Int) * N := by
    have h1440 : ((1440 : ℕ) : Int) = (1440 : Int) := rfl
    unfold READINGS_PER_DAY
    nlinarith
  have hcast : (((READINGS_PER_DAY : Int) * N : Int) : ℚ) = (1440 : ℚ) * (N : ℚ) := by
    unfold READINGS_PER_DAY
    push_cast
    ring
  have k1 : ((t : ℚ) / ((1440 : ℚ) * (N : ℚ)) * 100 ≥ ONLINE_OVERALL_THRESHOLD * 100)
      ↔ (t : ℚ) / ((1440 : ℚ) * (N : ℚ)) ≥ 7 / 10 := by
    unfold ONLINE_OVERALL_THRESHOLD
    constructor <;> intro hx <;> linarith
  have k2 : ((t : ℚ) / ((1440 : ℚ) * (N : ℚ)) * 100 ≥ DEGRADED_OVERALL_THRESHOLD * 100)
      ↔ (t : ℚ) / ((1440 : ℚ) * (N : ℚ)) ≥ 2 / 5 := by
    unfold DEGRADED_OVERALL_THRESHOLD
    constructor <;> intro hx <;> linarith
  unfold overallStatusOf
  simp only [ge_iff_le] at k1 k2 ⊢
  rw [if_pos hexp, hcast]
  by_cases hA : 7 / 10 ≤ (t : ℚ) / ((1440 : ℚ) * (N : ℚ))
  · rw [if_pos (k1.mpr hA), if_pos hA]
  · rw [if_neg (fun hc => hA (k1.mp hc)), if_neg hA]
    by_cases hB : 2 / 5 ≤ (t : ℚ) / ((1440 : ℚ) * (N : ℚ))
    · rw [if_pos (k2.mpr hB), if_pos hB]
    · rw [if_neg (fun hc => hB (k2.mp hc)), if_neg hB]

/-- Witness for C1 at the scenario's aggregate count. -/
theorem C1_aggregate_drives_status_witness :
    overallStatusOf 1441 3
      = (if ((1441 : ℕ) : ℚ) / ((1440 : ℚ) * (((3 : Int)) : ℚ)) ≥ 7 / 10 then Status.ONLINE
         else if ((1441 : ℕ) : ℚ) / ((1440 : ℚ) * (((3 : Int)) : ℚ)) ≥ 2 / 5 then
           Status.DEGRADED
         else Status.OFFLINE) :=
  C1_aggregate_drives_status.2.1 1441 3 (by decide)

/-- Splitting a list by a predicate preserves its length. -/
theorem countP_split {α : Type} (p : α → Bool) (l : List α) :
    l.countP p + (l.filter (fun a => !(p a))).length = l.length := by
  induction l with
  | nil => rfl
  | cons x xs ih =>
      rw [List.countP_cons, List.filter_cons]
      by_cases h : p x = true
      · simp only [h, if_true, Bool.not_true, List.length_cons]
        simp
        omega
      · have h' : p x = false := by simpa using h
        simp only [h', Bool.not_false, if_true, List.length_cons]
        simp
        omega

/-- Claim C9: the multi-day loop partitions the window: every day is
counted exactly once as online or offline, so `online_days` plus the
number of `offline_dates` equals `total_days = (end - start).days + 1`,
and every degraded date is an online-counted day inside the window. -/
theorem C9_window_partition (df : DF) (s e : Int) (loc : String) (h : s ≤ e) :
    ((rangeHealthFor df s e loc).online_days : Int)
        + ((rangeHealthFor df s e loc).offline_dates.length : Int)
      = (rangeHealthFor df s e loc).total_days ∧
    (rangeHealthFor df s e loc).total_days = (e - s) + 1 ∧
    ∀ d ∈ (rangeHealthFor df s e loc).degraded_dates,
      d ∉ (rangeHealthFor df s e loc).offline_dates ∧
      dayCountsOnline df loc d = true ∧ s ≤ d ∧ d ≤ e := by
  obtain ⟨i1, i2, i3⟩ := range_fold_spec df loc (dateRange s e) ⟨0, [], []⟩
  refine ⟨?_, rfl, ?_⟩
  · rw [rangeHealthFor_online_days, rangeHealthFor_offline_dates, rangeHealthFor_total_days,
      i1, i2]
    simp only [List.nil_append, Nat.zero_add]
    have hsplit := countP_split (fun d => dayCountsOnline df loc d) (dateRange s e)
    have hlen := dateRange_length s e
    omega
  · intro d hd
    rw [rangeHealthFor_degraded_dates, i3, List.nil_append, List.mem_filter] at hd
    obtain ⟨hdin, hdeg⟩ := hd
    have hon : dayCountsOnline df loc d = true := by
      unfold dayIsDegraded at hdeg
      simp only [Bool.and_eq_true] at hdeg
      exact hdeg.1
    obtain ⟨hs, he⟩ := dateRange_mem_bounds s e d hdin
    refine ⟨?_, hon, hs, he⟩
    rw [rangeHealthFor_offline_dates, i2, List.nil_append, List.mem_filter]
    rintro ⟨-, hcon⟩
    rw [hon] at hcon
    simp at hcon

/-- Witness for C9 on a 2-day window with data on one day. -/
theorem C9_window_partition_witness :
    ((rangeHealthFor dfC2 0 1 "L").online_days : Int)
        + ((rangeHealthFor dfC2 0 1 "L").offline_dates.length : Int)
      = (rangeHealthFor dfC2 0 1 "L").total_days :=
  (C9_window_partition dfC2 0 1 "L" (by decide)).1

/-- Claim C6: for both classifiers, a day wholly absent from the input
produces, for the device in question, exactly the same health record as
the same day present with only null values for that device. -/
theorem C6_absent_day_eq_empty_day (df : DF) (extra : List DFRow) (d : Int) (loc : String)
    (hdate : ∀ r ∈ extra, r.1 = d)
    (hnull : ∀ r ∈ extra, rowVal df.cols r loc = none)
    (hclean : ∀ r ∈ df.rows, r.1 ≠ d) :
    (∀ (target : Int) (locs : List String),
      (get_sensor_health_single_date df target locs).lookup loc
        = (get_sensor_health_single_date ⟨df.cols, df.rows ++ extra⟩ target locs).lookup loc) ∧
    (∀ s e : Int,
      rangeHealthFor df s e loc = rangeHealthFor ⟨df.cols, df.rows ++ extra⟩ s e loc) := by
  have hday2 : ∀ t : Int, dayDF ⟨df.cols, df.rows ++ extra⟩ t
      = dayDF df t ++ extra.filter (fun r => r.1 == t) := by
    intro t
    unfold dayDF
    exact List.filter_append _ _
  have hfilter_ne : ∀ t : Int, t ≠ d → extra.filter (fun r => r.1 == t) = [] := by
    intro t ht
    apply List.filter_eq_nil_iff.mpr
    intro r hr
    rw [hdate r hr]
    simp
    omega
  have hfilter_d : extra.filter (fun r => r.1 == d) = extra := by
    apply List.filter_eq_self.mpr
    intro r hr
    rw [hdate r hr]
    simp
  have hdayd : dayDF df d = [] := by
    apply List.filter_eq_nil_iff.mpr
    intro r hr
    simpa using hclean r hr
  have hnotna_extra : notnaSum df.cols extra loc = 0 := by
    apply List.countP_eq_zero.mpr
    intro r hr
    rw [hnull r hr]
    simp
  have hnotna : ∀ rs : List DFRow, notnaSum df.cols (rs ++ extra) loc = notnaSum df.cols rs loc := by
    intro rs
    unfold notnaSum
    rw [List.countP_append]
    have h0 : extra.countP (fun r => (rowVal df.cols r loc).isSome) = 0 := hnotna_extra
    omega
  constructor
  · intro target locs
    unfold get_sensor_health_single_date
    by_cases ht : target = d
    · subst ht
      rw [hday2, hdayd, hfilter_d, List.nil_append]
      dsimp only
      cases extra with
      | nil => rfl
      | cons x xs =>
          unfold singleHealthCore
          simp only [List.isEmpty_nil, List.isEmpty_cons, Bool.false_eq_true, if_false, if_true]
          by_cases hmem : loc ∈ locs
          · rw [lookup_map_self _ _ _ hmem, lookup_map_self _ _ _ hmem]
            have hv : notnaSum df.cols (x :: xs) loc = 0 := hnotna_extra
            norm_num [singleHealthEntry, hv, READINGS_PER_DAY, DEGRADED_THRESHOLD,
              OFFLINE_THRESHOLD]
          · rw [lookup_map_none _ _ _ hmem, lookup_map_none _ _ _ hmem]
    · rw [hday2, hfilter_ne target ht, List.append_nil]
  · intro s e
    have hon_d : dayCountsOnline df loc d = false := by
      unfold dayCountsOnline
      rw [hdayd]
      rfl
    have honline : ∀ t : Int,
        dayCountsOnline ⟨df.cols, df.rows ++ extra⟩ loc t = dayCountsOnline df loc t := by
      intro t
      by_cases ht : t = d
      · subst ht
        unfold dayCountsOnline
        rw [hday2, hdayd, hfilter_d, List.nil_append, hnotna_extra]
        simp
      · unfold dayCountsOnline
        rw [hday2, hfilter_ne t ht, List.append_nil]
    have hdeg2 : ∀ t : Int,
        dayIsDegraded ⟨df.cols, df.rows ++ extra⟩ loc t = dayIsDegraded df loc t := by
      intro t
      by_cases ht : t = d
      · subst ht
        unfold dayIsDegraded
        rw [honline t, hon_d]
        rfl
      · unfold dayIsDegraded
        rw [honline t, hday2, hfilter_ne t ht, List.append_nil]
    have hstep : ∀ (acc : RangeAcc) (t : Int),
        rangeDayStep ⟨df.cols, df.rows ++ extra⟩ loc acc t = rangeDayStep df loc acc t := by
      intro acc t
      rw [rangeDayStep_eq, rangeDayStep_eq, honline t, hdeg2 t]
    have hfold : (dateRange s e).foldl (rangeDayStep ⟨df.cols, df.rows ++ extra⟩ loc) ⟨0, [], []⟩
        = (dateRange s e).foldl (rangeDayStep df loc) ⟨0, [], []⟩ :=
      foldl_fun_congr _ _ _ _ hstep
    unfold rangeHealthFor
    dsimp only
    rw [hfold, hnotna df.rows]

set_option maxRecDepth 400000 in
/-- Claim C7, evaluated at the failing configuration: for a run on
2026-10-12 (`yesterday` = day 528 in the numbering with day 0 =
2025-05-01) with data present on every day, the walker processes day 0
(2025-05-01) even though the configured earliest-allowed date under
`BACKFILL_MAX_YEARS = 1` is day 164 (about 2025-10-12): `main` never
consults the configured lookback horizon. -/
theorem C7_horizon_not_configurable :
    (0 : Int) ∈ (main apiFull execEcho 0 7 528).processed ∧
    configuredEarliestDate 529 1 = 164 ∧
    (0 : Int) < configuredEarliestDate 529 1 := by
  refine ⟨by decide, rfl, by decide⟩

/-- Witness for C6: one device, day 0 absent versus day 0 all-null. -/
theorem C6_absent_day_eq_empty_day_witness :
    rangeHealthFor dfC6 0 1 "L" = rangeHealthFor ⟨dfC6.cols, dfC6.rows ++ extraC6⟩ 0 1 "L" :=
  (C6_absent_day_eq_empty_day dfC6 extraC6 0 "L"
    (by intro r hr; rw [extraC6, List.mem_singleton] at hr; subst hr; rfl)
    (by intro r hr; rw [extraC6, List.mem_singleton] at hr; subst hr; rfl)
    (by intro r hr; rw [dfC6, List.mem_singleton] at hr; subst hr; decide)).2 0 1

/-- Counterexample to C3 as stated: a run of the script on 2025-05-04
(window 2025-05-01..2025-05-03, i.e. 3 days) with
`EMPTY_CHUNKS_TO_STOP = 5` performs 3 iterations, not 5: the lookback
horizon is reached before the empty streak. -/
theorem C3_empty_streak_stop_cex :
    (main (fun _ _ => FetchResult.ok []) (fun _ _ _ => UpsertResp.okOther) 0 5
        2).days_processed = 3 ∧
    ¬ (main (fun _ _ => FetchResult.ok []) (fun _ _ _ => UpsertResp.okOther) 0 5
        2).days_processed = 5 := by
  decide

end NoiseMonitoring
